import Mathlib

/-!
Verification of the priority-issue detector of `analysis.py`
(tidb-pq-analysis).

The detector `detect_priority_issues` scans an ordered dataset of per-table
records and produces four evidence lists (large tables blocking small ones,
small blocking large, starved tables, high-change/low-priority tables)
together with a summary issue list.  Numeric record fields are embedded as
rationals; the dataset is a `List Record` preserving row order.  The loop
`for i in range(len(df) - 1)` with `current, next_table = df.iloc[i],
df.iloc[i+1]` is embedded as structural recursion over adjacent positions,
and pandas' `median` / `quantile` (linear interpolation) are embedded
explicitly below.
-/

namespace PQA

/-- One row of the dataset, with the columns accessed by `analysis.py`. -/
structure Record where
  ID : ℚ
  TableSize : ℚ
  CalculatedPriority : ℚ
  TimeSinceLastAnalyze : ℚ
  ChangeRatio : ℚ
deriving DecidableEq

/-- `PRIORITY_DIFFERENCE_THRESHOLD = 0.05` from `analysis.py`. -/
def PRIORITY_DIFFERENCE_THRESHOLD : ℚ := 5 / 100

/-- `TABLE_SIZE_RATIO_THRESHOLD = 2` from `analysis.py`. -/
def TABLE_SIZE_RATIO_THRESHOLD : ℚ := 2

/-- `STARVATION_THRESHOLD_DAYS = 2` from `analysis.py`. -/
def STARVATION_THRESHOLD_DAYS : ℚ := 2

/-- `CHANGE_RATIO_QUANTILE = 0.75` from `analysis.py`. -/
def CHANGE_RATIO_QUANTILE : ℚ := 75 / 100

/-- `LARGE_BLOCKING_SMALL_THRESHOLD = 10` from `analysis.py`. -/
def LARGE_BLOCKING_SMALL_THRESHOLD : ℕ := 10

/-- `SMALL_BLOCKING_LARGE_THRESHOLD = 10` from `analysis.py`. -/
def SMALL_BLOCKING_LARGE_THRESHOLD : ℕ := 10

/-- `STARVED_TABLES_THRESHOLD = 5` from `analysis.py`. -/
def STARVED_TABLES_THRESHOLD : ℕ := 5

/-- `HIGH_CHANGE_LOW_PRIORITY_THRESHOLD = 5` from `analysis.py`. -/
def HIGH_CHANGE_LOW_PRIORITY_THRESHOLD : ℕ := 5

/-- `SECONDS_PER_DAY = 24 * 3600` from `analysis.py`. -/
def SECONDS_PER_DAY : ℚ := 24 * 3600

/-- pandas `Series.median()`: sort ascending; the middle element for odd
length, the mean of the two middle elements for even length. -/
def median (xs : List ℚ) : ℚ :=
  let s := xs.insertionSort (· ≤ ·)
  let n := s.length
  if n % 2 = 1 then s.getD (n / 2) 0
  else (s.getD (n / 2 - 1) 0 + s.getD (n / 2) 0) / 2

/-- pandas `Series.quantile(q)` with the default linear interpolation:
with `s` the ascending sort and `h = q * (len - 1)`, the result is
`s[⌊h⌋] + (h - ⌊h⌋) * (s[⌊h⌋ + 1] - s[⌊h⌋])`. -/
def quantile (q : ℚ) (xs : List ℚ) : ℚ :=
  let s := xs.insertionSort (· ≤ ·)
  let n := s.length
  let h : ℚ := q * ((n : ℚ) - 1)
  let i : ℕ := (⌊h⌋).toNat
  let lo := s.getD i 0
  let hi := s.getD (i + 1) lo
  lo + (h - (i : ℚ)) * (hi - lo)

/-- Condition of `analysis.py` line 59: a large table potentially blocking a
small one. -/
def largeBlocksSmall (current next_table : Record) : Prop :=
  current.TableSize > next_table.TableSize * TABLE_SIZE_RATIO_THRESHOLD ∧
  current.CalculatedPriority - next_table.CalculatedPriority >
    PRIORITY_DIFFERENCE_THRESHOLD

instance (current next_table : Record) :
    Decidable (largeBlocksSmall current next_table) :=
  inferInstanceAs (Decidable (_ ∧ _))

/-- Condition of `analysis.py` line 63: a small table potentially blocking a
large one. -/
def smallBlocksLarge (current next_table : Record) : Prop :=
  current.TableSize * TABLE_SIZE_RATIO_THRESHOLD < next_table.TableSize ∧
  current.CalculatedPriority - next_table.CalculatedPriority >
    PRIORITY_DIFFERENCE_THRESHOLD

instance (current next_table : Record) :
    Decidable (smallBlocksLarge current next_table) :=
  inferInstanceAs (Decidable (_ ∧ _))

/-- Condition of `analysis.py` line 67: potential table starvation, relative
to the dataset-wide priority median `pm`. -/
def starvationCond (current : Record) (pm : ℚ) : Prop :=
  current.TimeSinceLastAnalyze > STARVATION_THRESHOLD_DAYS * SECONDS_PER_DAY ∧
  current.CalculatedPriority < pm

instance (current : Record) (pm : ℚ) :
    Decidable (starvationCond current pm) :=
  inferInstanceAs (Decidable (_ ∧ _))

/-- Condition of `analysis.py` line 71: high change ratio but low priority,
relative to the dataset-wide change-ratio quantile `qh` and priority
median `pm`. -/
def highChangeCond (current : Record) (qh pm : ℚ) : Prop :=
  current.ChangeRatio > qh ∧ current.CalculatedPriority < pm

instance (current : Record) (qh pm : ℚ) :
    Decidable (highChangeCond current qh pm) :=
  inferInstanceAs (Decidable (_ ∧ _))

/-- Evidence tuple appended by the two size-blocking rules:
`(current['ID'], next_table['ID'], current['TableSize'],
next_table['TableSize'])`. -/
def pairEvidence (current next_table : Record) : ℚ × ℚ × ℚ × ℚ :=
  (current.ID, next_table.ID, current.TableSize, next_table.TableSize)

/-- Evidence tuple appended by the starvation rule:
`(current['ID'], current['TimeSinceLastAnalyze'],
current['CalculatedPriority'])`. -/
def starvedEvidence (current : Record) : ℚ × ℚ × ℚ :=
  (current.ID, current.TimeSinceLastAnalyze, current.CalculatedPriority)

/-- Evidence tuple appended by the high-change/low-priority rule:
`(current['ID'], current['ChangeRatio'], current['CalculatedPriority'])`. -/
def highChangeEvidence (current : Record) : ℚ × ℚ × ℚ :=
  (current.ID, current.ChangeRatio, current.CalculatedPriority)

/-- The four evidence lists accumulated by the scan loop of
`detect_priority_issues`. -/
structure ScanLists where
  large_blocking_small : List (ℚ × ℚ × ℚ × ℚ)
  small_blocking_large : List (ℚ × ℚ × ℚ × ℚ)
  starved_tables : List (ℚ × ℚ × ℚ)
  high_change_low_priority : List (ℚ × ℚ × ℚ)
deriving DecidableEq

/-- One iteration of the loop body (lines 58-72 of `analysis.py`) for the
pair `(current, next_table)`, given the dataset statistics `pm`
(priority median) and `qh` (change-ratio quantile); `rest` is the result of
the remaining iterations, so entries stay in scan order. -/
def scanStep (pm qh : ℚ) (current next_table : Record) (rest : ScanLists) :
    ScanLists where
  large_blocking_small :=
    if largeBlocksSmall current next_table then
      pairEvidence current next_table :: rest.large_blocking_small
    else rest.large_blocking_small
  small_blocking_large :=
    if smallBlocksLarge current next_table then
      pairEvidence current next_table :: rest.small_blocking_large
    else rest.small_blocking_large
  starved_tables :=
    if starvationCond current pm then
      starvedEvidence current :: rest.starved_tables
    else rest.starved_tables
  high_change_low_priority :=
    if highChangeCond current qh pm then
      highChangeEvidence current :: rest.high_change_low_priority
    else rest.high_change_low_priority

/-- The scan loop with the dataset statistics `pm` and `qh` supplied once,
up front (the two-phase formulation of section 9 of the design).  The
recursion over `current :: next_table :: rest` is the loop
`for i in range(len(df) - 1)` over adjacent positions `(i, i+1)`. -/
def scanPairs (pm qh : ℚ) : List Record → ScanLists
  | current :: next_table :: rest =>
      scanStep pm qh current next_table (scanPairs pm qh (next_table :: rest))
  | _ => ⟨[], [], [], []⟩

/-- The scan loop exactly as written in `analysis.py`: the dataset-wide
median of `CalculatedPriority` and quantile of `ChangeRatio` are recomputed
from the full dataset `df` inside every loop iteration (lines 67 and 71). -/
def scanLoop (df : List Record) : List Record → ScanLists
  | current :: next_table :: rest =>
      scanStep (median (df.map Record.CalculatedPriority))
        (quantile CHANGE_RATIO_QUANTILE (df.map Record.ChangeRatio))
        current next_table (scanLoop df (next_table :: rest))
  | _ => ⟨[], [], [], []⟩

/-- The tuple returned by `detect_priority_issues`: the summary issue list
plus the four evidence lists. -/
structure DetectionResult where
  issues : List String
  large_blocking_small : List (ℚ × ℚ × ℚ × ℚ)
  small_blocking_large : List (ℚ × ℚ × ℚ × ℚ)
  starved_tables : List (ℚ × ℚ × ℚ)
  high_change_low_priority : List (ℚ × ℚ × ℚ)
deriving DecidableEq

/-- Summary message of `analysis.py` line 76. -/
def largeMsg (n : ℕ) : String :=
  "Found " ++ toString n ++
    " instances where larger tables may be blocking smaller tables"

/-- Summary message of `analysis.py` line 79. -/
def smallMsg (n : ℕ) : String :=
  "Found " ++ toString n ++
    " instances where smaller tables may be blocking larger tables"

/-- Summary message of `analysis.py` line 82. -/
def starvedMsg (n : ℕ) : String :=
  "Found " ++ toString n ++ " instances of potential table starvation"

/-- Summary message of `analysis.py` line 85. -/
def highChangeMsg (n : ℕ) : String :=
  "Found " ++ toString n ++
    " instances of tables with high change ratio but low priority"

/-- Lines 74-87 of `analysis.py`: escalate each evidence list to a summary
issue line exactly when its length strictly exceeds the per-category
threshold, in the fixed order large, small, starved, high-change. -/
def summarize (r : ScanLists) : DetectionResult where
  issues :=
    (if r.large_blocking_small.length > LARGE_BLOCKING_SMALL_THRESHOLD then
      [largeMsg r.large_blocking_small.length] else []) ++
    (if r.small_blocking_large.length > SMALL_BLOCKING_LARGE_THRESHOLD then
      [smallMsg r.small_blocking_large.length] else []) ++
    (if r.starved_tables.length > STARVED_TABLES_THRESHOLD then
      [starvedMsg r.starved_tables.length] else []) ++
    (if r.high_change_low_priority.length >
        HIGH_CHANGE_LOW_PRIORITY_THRESHOLD then
      [highChangeMsg r.high_change_low_priority.length] else [])
  large_blocking_small := r.large_blocking_small
  small_blocking_large := r.small_blocking_large
  starved_tables := r.starved_tables
  high_change_low_priority := r.high_change_low_priority

/-- `detect_priority_issues` of `analysis.py`, as written: the scan loop
recomputing the global statistics in every iteration, followed by the
summarization of lines 74-87. -/
def detect_priority_issues (df : List Record) : DetectionResult :=
  summarize (scanLoop df df)

/-- The two-phase variant described by the design: `priority_median` and
`change_ratio_high` are computed once, before the scan, and reused across
all records. -/
def detect_two_phase (df : List Record) : DetectionResult :=
  let priority_median := median (df.map Record.CalculatedPriority)
  let change_ratio_high :=
    quantile CHANGE_RATIO_QUANTILE (df.map Record.ChangeRatio)
  summarize (scanPairs priority_median change_ratio_high df)

/-- Dataset for the boundary check of the summary escalation: 11 records in
strictly decreasing size (factor 3) and strictly decreasing priority
(step 1), giving exactly 10 large-blocking-small pairs. -/
def ds10 : List Record :=
  [⟨1, 177147, 12, 0, 0⟩, ⟨2, 59049, 11, 0, 0⟩, ⟨3, 19683, 10, 0, 0⟩,
   ⟨4, 6561, 9, 0, 0⟩, ⟨5, 2187, 8, 0, 0⟩, ⟨6, 729, 7, 0, 0⟩,
   ⟨7, 243, 6, 0, 0⟩, ⟨8, 81, 5, 0, 0⟩, ⟨9, 27, 4, 0, 0⟩,
   ⟨10, 9, 3, 0, 0⟩, ⟨11, 3, 2, 0, 0⟩]

/-- Dataset with 12 such records, giving exactly 11 large-blocking-small
pairs. -/
def ds11 : List Record :=
  [⟨1, 177147, 12, 0, 0⟩, ⟨2, 59049, 11, 0, 0⟩, ⟨3, 19683, 10, 0, 0⟩,
   ⟨4, 6561, 9, 0, 0⟩, ⟨5, 2187, 8, 0, 0⟩, ⟨6, 729, 7, 0, 0⟩,
   ⟨7, 243, 6, 0, 0⟩, ⟨8, 81, 5, 0, 0⟩, ⟨9, 27, 4, 0, 0⟩,
   ⟨10, 9, 3, 0, 0⟩, ⟨11, 3, 2, 0, 0⟩, ⟨12, 1, 1, 0, 0⟩]

/-- Two-record dataset whose LAST record satisfies the starvation condition
(analyzed 200000 s ago, priority 0 below the median 1/2) while the first
record does not. -/
def dsLast : List Record := [⟨1, 0, 1, 0, 0⟩, ⟨2, 0, 0, 200000, 0⟩]

/-- Two-record dataset whose first record is starved (analyzed 200000 s ago,
priority 0 below the median 1/2 of \x7b0, 1\x7d). -/
def dsMono : List Record := [⟨1, 0, 0, 200000, 0⟩, ⟨2, 0, 1, 0, 0⟩]

/-- A record whose priority -1 drags the median of `dsMono ++ [recMono]`
down to 0, so the first record of `dsMono` is no longer below the median. -/
def recMono : Record := ⟨3, 0, -1, 0, 0⟩

/-! ## Helper lemmas -/

theorem summarize_large (r : ScanLists) :
    (summarize r).large_blocking_small = r.large_blocking_small := rfl

theorem summarize_small (r : ScanLists) :
    (summarize r).small_blocking_large = r.small_blocking_large := rfl

theorem summarize_starved (r : ScanLists) :
    (summarize r).starved_tables = r.starved_tables := rfl

theorem summarize_high (r : ScanLists) :
    (summarize r).high_change_low_priority = r.high_change_low_priority := rfl

/-- The dataset is not modified during the scan, so recomputing the global
statistics in every iteration (the loop as written) gives the same result as
computing them once up front. -/
theorem scanLoop_eq_scanPairs (df : List Record) :
    ∀ l : List Record,
      scanLoop df l =
        scanPairs (median (df.map Record.CalculatedPriority))
          (quantile CHANGE_RATIO_QUANTILE (df.map Record.ChangeRatio)) l
  | [] => rfl
  | [_] => rfl
  | current :: next_table :: rest => by
      have ih := scanLoop_eq_scanPairs df (next_table :: rest)
      simp only [scanLoop, scanPairs, ih]

/-- The large-blocking-small evidence list is the in-order selection of the
adjacent pairs satisfying `largeBlocksSmall`. -/
theorem scanPairs_large_eq (pm qh : ℚ) :
    ∀ l : List Record,
      (scanPairs pm qh l).large_blocking_small =
        (l.zip l.tail).filterMap fun p =>
          if largeBlocksSmall p.1 p.2 then some (pairEvidence p.1 p.2)
          else none
  | [] => rfl
  | [_] => rfl
  | current :: next_table :: rest => by
      have ih := scanPairs_large_eq pm qh (next_table :: rest)
      by_cases h : largeBlocksSmall current next_table <;>
        simp [scanPairs, scanStep, h, ih, List.filterMap_cons]

/-- The small-blocking-large evidence list is the in-order selection of the
adjacent pairs satisfying `smallBlocksLarge`. -/
theorem scanPairs_small_eq (pm qh : ℚ) :
    ∀ l : List Record,
      (scanPairs pm qh l).small_blocking_large =
        (l.zip l.tail).filterMap fun p =>
          if smallBlocksLarge p.1 p.2 then some (pairEvidence p.1 p.2)
          else none
  | [] => rfl
  | [_] => rfl
  | current :: next_table :: rest => by
      have ih := scanPairs_small_eq pm qh (next_table :: rest)
      by_cases h : smallBlocksLarge current next_table <;>
        simp [scanPairs, scanStep, h, ih, List.filterMap_cons]

/-- The starved-tables evidence list is the in-order selection, among all
records except the last one, of those satisfying `starvationCond`. -/
theorem scanPairs_starved_eq (pm qh : ℚ) :
    ∀ l : List Record,
      (scanPairs pm qh l).starved_tables =
        (l.dropLast.filter fun r => starvationCond r pm).map starvedEvidence
  | [] => rfl
  | [_] => rfl
  | current :: next_table :: rest => by
      have ih := scanPairs_starved_eq pm qh (next_table :: rest)
      by_cases h : starvationCond current pm <;>
        simp [scanPairs, scanStep, h, ih, List.filter_cons]

/-- The high-change/low-priority evidence list is the in-order selection,
among all records except the last one, of those satisfying
`highChangeCond`. -/
theorem scanPairs_high_eq (pm qh : ℚ) :
    ∀ l : List Record,
      (scanPairs pm qh l).high_change_low_priority =
        (l.dropLast.filter fun r => highChangeCond r qh pm).map
          highChangeEvidence
  | [] => rfl
  | [_] => rfl
  | current :: next_table :: rest => by
      have ih := scanPairs_high_eq pm qh (next_table :: rest)
      by_cases h : highChangeCond current qh pm <;>
        simp [scanPairs, scanStep, h, ih, List.filter_cons]

/-- Adjacent pairs of a list stay an initial segment of the adjacent pairs
of any extension of that list. -/
theorem zip_tail_append (ext : List Record) :
    ∀ df : List Record,
      ∃ t, df.zip df.tail ++ t = (df ++ ext).zip (df ++ ext).tail
  | [] => ⟨(ext.zip ext.tail), by simp⟩
  | [a] => ⟨((a :: ext).zip ext), by cases ext <;> simp⟩
  | a :: b :: rest => by
      obtain ⟨t, ht⟩ := zip_tail_append ext (b :: rest)
      exact ⟨t, by simpa [List.cons_append] using congrArg (List.cons (a, b)) ht⟩

/-- Field-level description of `detect_priority_issues`: the
large-blocking-small output. -/
theorem detect_large_eq (df : List Record) :
    (detect_priority_issues df).large_blocking_small =
      (df.zip df.tail).filterMap fun p =>
        if largeBlocksSmall p.1 p.2 then some (pairEvidence p.1 p.2)
        else none := by
  rw [detect_priority_issues, scanLoop_eq_scanPairs df df, summarize_large,
    scanPairs_large_eq]

/-- Field-level description of `detect_priority_issues`: the
small-blocking-large output. -/
theorem detect_small_eq (df : List Record) :
    (detect_priority_issues df).small_blocking_large =
      (df.zip df.tail).filterMap fun p =>
        if smallBlocksLarge p.1 p.2 then some (pairEvidence p.1 p.2)
        else none := by
  rw [detect_priority_issues, scanLoop_eq_scanPairs df df, summarize_small,
    scanPairs_small_eq]

/-- Field-level description of `detect_priority_issues`: the starved-tables
output. -/
theorem detect_starved_eq (df : List Record) :
    (detect_priority_issues df).starved_tables =
      (df.dropLast.filter fun r =>
        starvationCond r (median (df.map Record.CalculatedPriority))).map
        starvedEvidence := by
  rw [detect_priority_issues, scanLoop_eq_scanPairs df df, summarize_starved,
    scanPairs_starved_eq]

/-- Field-level description of `detect_priority_issues`: the
high-change/low-priority output. -/
theorem detect_high_eq (df : List Record) :
    (detect_priority_issues df).high_change_low_priority =
      (df.dropLast.filter fun r =>
        highChangeCond r
          (quantile CHANGE_RATIO_QUANTILE (df.map Record.ChangeRatio))
          (median (df.map Record.CalculatedPriority))).map
        highChangeEvidence := by
  rw [detect_priority_issues, scanLoop_eq_scanPairs df df, summarize_high,
    scanPairs_high_eq]

/-- Evaluation scheme for `quantile`: supply the sorted list and the
interpolation index explicitly, leaving only list lookups and rational
arithmetic. -/
theorem quantile_eval (q : ℚ) (xs s : List ℚ) (i : ℕ)
    (hs : xs.insertionSort (· ≤ ·) = s)
    (hi : (⌊q * ((s.length : ℚ) - 1)⌋).toNat = i) :
    quantile q xs =
      s.getD i 0 + (q * ((s.length : ℚ) - 1) - (i : ℚ)) *
        (s.getD (i + 1) (s.getD i 0) - s.getD i 0) := by
  simp only [quantile, hs, hi]

/-! ## Claims -/

/-- Claim C3: computing the dataset-wide median and quantile once before the
scan (the two-phase pipeline) returns exactly the same result as the
as-written detector that recomputes both statistics inside every loop
iteration, since the dataset is not modified during the scan. -/
theorem c3_two_phase_refinement (df : List Record) :
    detect_priority_issues df = detect_two_phase df := by
  simp only [detect_priority_issues, detect_two_phase,
    scanLoop_eq_scanPairs df df]

/-- Claim C5: on the empty dataset the detector returns four empty evidence
lists and an empty issue summary; moreover the scan result does not depend
on the (undefined) median and quantile thresholds at all. -/
theorem c5_empty_dataset :
    detect_priority_issues [] = ⟨[], [], [], [], []⟩ ∧
    ∀ pm qh : ℚ, summarize (scanPairs pm qh []) = ⟨[], [], [], [], []⟩ :=
  ⟨rfl, fun _ _ => rfl⟩

/-- Claim C9: the detector is deterministic — identical input always yields
identical output, element for element (it is a pure function of the
dataset and the fixed threshold constants). -/
theorem c9_deterministic (df₁ df₂ : List Record) (h : df₁ = df₂) :
    detect_priority_issues df₁ = detect_priority_issues df₂ := by rw [h]

theorem c9_witness :
    dsLast = dsLast ∧
      detect_priority_issues dsLast = detect_priority_issues dsLast :=
  ⟨rfl, c9_deterministic dsLast dsLast rfl⟩

/-- Claim C10: a single-record dataset yields an empty issue summary and
four empty evidence lists regardless of the record's field values, because
the scan loop over positions `0..N-2` runs zero iterations. -/
theorem c10_singleton (r : Record) :
    detect_priority_issues [r] = ⟨[], [], [], [], []⟩ := rfl

/-- Claim C6: for records with non-negative table sizes the
large-blocks-small and small-blocks-large conditions are mutually exclusive
for the same adjacent pair. -/
theorem c6_mutually_exclusive (current next_table : Record)
    (h1 : 0 ≤ current.TableSize) (h2 : 0 ≤ next_table.TableSize) :
    ¬(largeBlocksSmall current next_table ∧
      smallBlocksLarge current next_table) := by
  intro h
  simp only [largeBlocksSmall, smallBlocksLarge,
    TABLE_SIZE_RATIO_THRESHOLD] at h
  obtain ⟨⟨hl, -⟩, ⟨hs, -⟩⟩ := h
  linarith

theorem c6_witness :
    0 ≤ (Record.mk 1 0 1 0 0).TableSize ∧
      0 ≤ (Record.mk 2 0 0 0 0).TableSize ∧
      ¬(largeBlocksSmall (Record.mk 1 0 1 0 0) (Record.mk 2 0 0 0 0) ∧
        smallBlocksLarge (Record.mk 1 0 1 0 0) (Record.mk 2 0 0 0 0)) :=
  ⟨le_refl 0, le_refl 0,
    c6_mutually_exclusive (Record.mk 1 0 1 0 0) (Record.mk 2 0 0 0 0)
      (le_refl 0) (le_refl 0)⟩

/-- Claim C7: when `current.TableSize` equals `next_table.TableSize * 2`
exactly, neither size-blocking rule fires, regardless of the priority
difference (both size comparisons are strict); table sizes are non-negative
per the data model. -/
theorem c7_exact_ratio_boundary (current next_table : Record)
    (h : current.TableSize = next_table.TableSize * 2)
    (h2 : 0 ≤ next_table.TableSize) :
    ¬largeBlocksSmall current next_table ∧
      ¬smallBlocksLarge current next_table := by
  constructor <;> intro hc <;>
    [skip; skip] <;>
    · simp only [largeBlocksSmall, smallBlocksLarge,
        TABLE_SIZE_RATIO_THRESHOLD] at hc
      obtain ⟨hsz, -⟩ := hc
      rw [h] at hsz
      linarith

theorem c7_witness :
    (Record.mk 1 0 0 0 0).TableSize = (Record.mk 2 0 0 0 0).TableSize * 2 ∧
      0 ≤ (Record.mk 2 0 0 0 0).TableSize ∧
      (¬largeBlocksSmall (Record.mk 1 0 0 0 0) (Record.mk 2 0 0 0 0) ∧
        ¬smallBlocksLarge (Record.mk 1 0 0 0 0) (Record.mk 2 0 0 0 0)) :=
  ⟨(zero_mul 2).symm, le_refl 0,
    c7_exact_ratio_boundary (Record.mk 1 0 0 0 0) (Record.mk 2 0 0 0 0)
      (zero_mul 2).symm (le_refl 0)⟩

/-- Claim C1: an adjacent pair `(i, i+1)` contributes to the
large-blocking-small evidence list exactly when
`current.TableSize > next.TableSize * 2` and
`current.CalculatedPriority - next.CalculatedPriority > 0.05`; the recorded
evidence is `(current.ID, next.ID, current.TableSize, next.TableSize)` and
entries appear in scan (position) order. -/
theorem c1_large_blocking_small_spec (df : List Record) :
    (detect_priority_issues df).large_blocking_small =
      (df.zip df.tail).filterMap fun p =>
        if p.1.TableSize > p.2.TableSize * 2 ∧
            p.1.CalculatedPriority - p.2.CalculatedPriority > 5 / 100 then
          some (p.1.ID, p.2.ID, p.1.TableSize, p.2.TableSize)
        else none := by
  rw [detect_large_eq]
  refine List.filterMap_congr fun p _ => ?_
  by_cases h : largeBlocksSmall p.1 p.2
  · have h' : p.1.TableSize > p.2.TableSize * 2 ∧
        p.1.CalculatedPriority - p.2.CalculatedPriority > 5 / 100 := by
      simpa [largeBlocksSmall, TABLE_SIZE_RATIO_THRESHOLD,
        PRIORITY_DIFFERENCE_THRESHOLD] using h
    rw [if_pos h, if_pos h']
    rfl
  · have h' : ¬(p.1.TableSize > p.2.TableSize * 2 ∧
        p.1.CalculatedPriority - p.2.CalculatedPriority > 5 / 100) := by
      simpa [largeBlocksSmall, TABLE_SIZE_RATIO_THRESHOLD,
        PRIORITY_DIFFERENCE_THRESHOLD] using h
    rw [if_neg h, if_neg h']

/-- Claim C2 counterexample: in the two-record dataset `dsLast` the last
record satisfies the starvation condition (200000 s since analyze, priority
0 below the median 1/2), yet the starved-tables list is empty — the
per-record rules never evaluate the last record. -/
theorem c2_counterexample :
    starvationCond (Record.mk 2 0 0 200000 0)
        (median (dsLast.map Record.CalculatedPriority)) ∧
      dsLast.getLast? = some (Record.mk 2 0 0 200000 0) ∧
      (detect_priority_issues dsLast).starved_tables = [] := by
  refine ⟨⟨?_, ?_⟩, rfl, ?_⟩
  · show (200000 : ℚ) > STARVATION_THRESHOLD_DAYS * SECONDS_PER_DAY
    norm_num [STARVATION_THRESHOLD_DAYS, SECONDS_PER_DAY]
  · show (0 : ℚ) < median (dsLast.map Record.CalculatedPriority)
    norm_num [dsLast, median, List.insertionSort, List.orderedInsert]
  · rw [detect_starved_eq]
    norm_num [dsLast, List.filter_cons, starvationCond,
      STARVATION_THRESHOLD_DAYS, SECONDS_PER_DAY]

/-- Claim C2 (amended): the per-record starvation and high-change rules are
evaluated only for `current` records at positions `0..N-2`; the last record
is never evaluated by any rule, so the starved and high-change lists are
drawn exclusively from all records but the last. -/
theorem c2_last_record_skipped (df : List Record) :
    (detect_priority_issues df).starved_tables =
      (df.dropLast.filter fun r =>
        starvationCond r (median (df.map Record.CalculatedPriority))).map
        starvedEvidence ∧
    (detect_priority_issues df).high_change_low_priority =
      (df.dropLast.filter fun r =>
        highChangeCond r
          (quantile CHANGE_RATIO_QUANTILE (df.map Record.ChangeRatio))
          (median (df.map Record.CalculatedPriority))).map
        highChangeEvidence :=
  ⟨detect_starved_eq df, detect_high_eq df⟩

/-- Claim C8 counterexample: appending the record `recMono` to `dsMono`
shrinks the starved-tables list (from one entry to none): the appended
record lowers the dataset priority median from 1/2 to 0, so the first
record no longer scores below the median. -/
theorem c8_counterexample :
    (detect_priority_issues (dsMono ++ [recMono])).starved_tables.length <
      (detect_priority_issues dsMono).starved_tables.length := by
  rw [detect_starved_eq, detect_starved_eq]
  have h1 : median (dsMono.map Record.CalculatedPriority) = 1 / 2 := by
    norm_num [dsMono, median, List.insertionSort, List.orderedInsert]
  have h2 : median ((dsMono ++ [recMono]).map Record.CalculatedPriority)
      = 0 := by
    norm_num [dsMono, recMono, median, List.insertionSort,
      List.orderedInsert]
  rw [h1, h2]
  norm_num [dsMono, recMono, List.filter_cons, starvationCond,
    STARVATION_THRESHOLD_DAYS, SECONDS_PER_DAY]

/-- Claim C8 (amended): the two pairwise size-blocking evidence lists are
monotone under appending records — the original list is an initial segment
of the extended one, so its length cannot decrease.  (The starvation and
high-change lists are not monotone: see the counterexample, where appending
a record changes the dataset median.) -/
theorem c8_pairwise_lists_monotone (df ext : List Record) :
    (∃ t, (detect_priority_issues df).large_blocking_small ++ t =
      (detect_priority_issues (df ++ ext)).large_blocking_small) ∧
    (∃ t, (detect_priority_issues df).small_blocking_large ++ t =
      (detect_priority_issues (df ++ ext)).small_blocking_large) ∧
    (detect_priority_issues df).large_blocking_small.length ≤
      (detect_priority_issues (df ++ ext)).large_blocking_small.length ∧
    (detect_priority_issues df).small_blocking_large.length ≤
      (detect_priority_issues (df ++ ext)).small_blocking_large.length := by
  obtain ⟨t, ht⟩ := zip_tail_append ext df
  have hL : ∃ u, (detect_priority_issues df).large_blocking_small ++ u =
      (detect_priority_issues (df ++ ext)).large_blocking_small := by
    refine ⟨t.filterMap fun p =>
      if largeBlocksSmall p.1 p.2 then some (pairEvidence p.1 p.2)
      else none, ?_⟩
    rw [detect_large_eq, detect_large_eq, ← ht, List.filterMap_append]
  have hS : ∃ u, (detect_priority_issues df).small_blocking_large ++ u =
      (detect_priority_issues (df ++ ext)).small_blocking_large := by
    refine ⟨t.filterMap fun p =>
      if smallBlocksLarge p.1 p.2 then some (pairEvidence p.1 p.2)
      else none, ?_⟩
    rw [detect_small_eq, detect_small_eq, ← ht, List.filterMap_append]
  refine ⟨hL, hS, ?_, ?_⟩
  · obtain ⟨u, hu⟩ := hL
    rw [← hu, List.length_append]
    exact Nat.le_add_right _ _
  · obtain ⟨u, hu⟩ := hS
    rw [← hu, List.length_append]
    exact Nat.le_add_right _ _

/-- Claim C4: a category appears in the issues summary exactly when its
evidence list's length strictly exceeds its threshold (10, 10, 5, 5); in
particular 10 large-blocking-small entries produce no issue line while 11
entries produce exactly one line stating the count 11. -/
theorem c4_summary_escalation :
    (∀ df : List Record,
      (detect_priority_issues df).issues =
        (if (detect_priority_issues df).large_blocking_small.length > 10 then
          [largeMsg (detect_priority_issues df).large_blocking_small.length]
         else []) ++
        (if (detect_priority_issues df).small_blocking_large.length > 10 then
          [smallMsg (detect_priority_issues df).small_blocking_large.length]
         else []) ++
        (if (detect_priority_issues df).starved_tables.length > 5 then
          [starvedMsg (detect_priority_issues df).starved_tables.length]
         else []) ++
        (if (detect_priority_issues df).high_change_low_priority.length > 5
         then
          [highChangeMsg
            (detect_priority_issues df).high_change_low_priority.length]
         else [])) ∧
    (detect_priority_issues ds10).large_blocking_small.length = 10 ∧
    (detect_priority_issues ds10).issues = [] ∧
    (detect_priority_issues ds11).large_blocking_small.length = 11 ∧
    (detect_priority_issues ds11).issues =
      ["Found 11 instances where larger tables may be blocking smaller tables"]
    := by
  have huniv : ∀ df : List Record,
      (detect_priority_issues df).issues =
        (if (detect_priority_issues df).large_blocking_small.length > 10 then
          [largeMsg (detect_priority_issues df).large_blocking_small.length]
         else []) ++
        (if (detect_priority_issues df).small_blocking_large.length > 10 then
          [smallMsg (detect_priority_issues df).small_blocking_large.length]
         else []) ++
        (if (detect_priority_issues df).starved_tables.length > 5 then
          [starvedMsg (detect_priority_issues df).starved_tables.length]
         else []) ++
        (if (detect_priority_issues df).high_change_low_priority.length > 5
         then
          [highChangeMsg
            (detect_priority_issues df).high_change_low_priority.length]
         else []) := fun _ => rfl
  have hL10 : (detect_priority_issues ds10).large_blocking_small.length
      = 10 := by
    rw [detect_large_eq]
    norm_num [ds10, largeBlocksSmall, pairEvidence,
      TABLE_SIZE_RATIO_THRESHOLD, PRIORITY_DIFFERENCE_THRESHOLD,
      List.filterMap_cons]
  have hS10 : (detect_priority_issues ds10).small_blocking_large = [] := by
    rw [detect_small_eq]
    norm_num [ds10, smallBlocksLarge, TABLE_SIZE_RATIO_THRESHOLD,
      PRIORITY_DIFFERENCE_THRESHOLD, List.filterMap_cons]
  have hSt10 : (detect_priority_issues ds10).starved_tables = [] := by
    rw [detect_starved_eq]
    norm_num [ds10, List.filter_cons, starvationCond,
      STARVATION_THRESHOLD_DAYS, SECONDS_PER_DAY]
  have hq10 : quantile CHANGE_RATIO_QUANTILE (ds10.map Record.ChangeRatio)
      = 0 := by
    have hs : (ds10.map Record.ChangeRatio).insertionSort (· ≤ ·) =
        [0, 0, 0, 0, 0, 0, 0, 0, 0, 0, 0] := by
      norm_num [ds10, List.insertionSort, List.orderedInsert]
    have he := quantile_eval CHANGE_RATIO_QUANTILE
      (ds10.map Record.ChangeRatio) [0, 0, 0, 0, 0, 0, 0, 0, 0, 0, 0] 7 hs
      (by norm_num [CHANGE_RATIO_QUANTILE]; rfl)
    rw [he,
      show (([0, 0, 0, 0, 0, 0, 0, 0, 0, 0, 0] : List ℚ).getD 7 0) = 0
        from rfl,
      show (([0, 0, 0, 0, 0, 0, 0, 0, 0, 0, 0] : List ℚ).getD 8 0) = 0
        from rfl]
    norm_num
  have hH10 : (detect_priority_issues ds10).high_change_low_priority
      = [] := by
    rw [detect_high_eq, hq10]
    norm_num [ds10, List.filter_cons, highChangeCond]
  have hL11 : (detect_priority_issues ds11).large_blocking_small.length
      = 11 := by
    rw [detect_large_eq]
    norm_num [ds11, largeBlocksSmall, pairEvidence,
      TABLE_SIZE_RATIO_THRESHOLD, PRIORITY_DIFFERENCE_THRESHOLD,
      List.filterMap_cons]
  have hS11 : (detect_priority_issues ds11).small_blocking_large = [] := by
    rw [detect_small_eq]
    norm_num [ds11, smallBlocksLarge, TABLE_SIZE_RATIO_THRESHOLD,
      PRIORITY_DIFFERENCE_THRESHOLD, List.filterMap_cons]
  have hSt11 : (detect_priority_issues ds11).starved_tables = [] := by
    rw [detect_starved_eq]
    norm_num [ds11, List.filter_cons, starvationCond,
      STARVATION_THRESHOLD_DAYS, SECONDS_PER_DAY]
  have hq11 : quantile CHANGE_RATIO_QUANTILE (ds11.map Record.ChangeRatio)
      = 0 := by
    have hs : (ds11.map Record.ChangeRatio).insertionSort (· ≤ ·) =
        [0, 0, 0, 0, 0, 0, 0, 0, 0, 0, 0, 0] := by
      norm_num [ds11, List.insertionSort, List.orderedInsert]
    have he := quantile_eval CHANGE_RATIO_QUANTILE
      (ds11.map Record.ChangeRatio) [0, 0, 0, 0, 0, 0, 0, 0, 0, 0, 0, 0] 8 hs
      (by norm_num [CHANGE_RATIO_QUANTILE]; rfl)
    rw [he,
      show (([0, 0, 0, 0, 0, 0, 0, 0, 0, 0, 0, 0] : List ℚ).getD 8 0) = 0
        from rfl,
      show (([0, 0, 0, 0, 0, 0, 0, 0, 0, 0, 0, 0] : List ℚ).getD 9 0) = 0
        from rfl]
    norm_num
  have hH11 : (detect_priority_issues ds11).high_change_low_priority
      = [] := by
    rw [detect_high_eq, hq11]
    norm_num [ds11, List.filter_cons, highChangeCond]
  refine ⟨huniv, hL10, ?_, hL11, ?_⟩
  · rw [huniv ds10]
    simp [hL10, hS10, hSt10, hH10]
  · rw [huniv ds11]
    simp [hL11, hS11, hSt11, hH11]
    rfl

end PQA
